import Mathlib

/-!
Shallow embedding of `src/main.go`, a Kusto round-trip demo client.

The program is sequential orchestration of SDK calls: build a connection
string (`getKustoConnStr`, after `getAzBearerToken` in BearerToken mode),
construct a query client (`getKustoClient`), ingest one synthetic row
(`ingestData`) and read the last five rows back (`getData`).

External SDK effects (credential construction, token requests, ingestor
construction, file writes, ingestion submission, pipeline terminal status,
query submission, row delivery) are modelled by environment records whose
fields give each effect's outcome.  Each embedded function returns its Go
result together with an explicit trace of the observable effects the claims
talk about: token-request scopes, staged file writes, `FromFile` calls,
`Close` calls, and rows observed by the caller.
-/

namespace KustoMain

/-- `KustoURL` is the URL of the Kusto cluster (constant from the source). -/
def KustoURL : String := "https://ravpateadx.eastus.kusto.windows.net"

/-- Go's `AuthType` is a named integer type. -/
abbrev AuthType := Int

/-- `BearerToken AuthType = iota`, hence `0`. -/
def BearerToken : AuthType := 0

/-- `Interactive` is the next `iota` value, hence `1`. -/
def Interactive : AuthType := 1

/-- The `String()` method of `AuthType` (the Go stringer). -/
def AuthTypeString (a : AuthType) : String :=
  if a = BearerToken then "BearerToken"
  else if a = Interactive then "Interactive"
  else "Unknown"

/-- `azcore.AccessToken`: only the `Token` field is used by the program. -/
structure AccessToken where
  Token : String
deriving Repr, DecidableEq

/-- Outcomes of the Azure identity SDK calls made by `getAzBearerToken`:
whether `azidentity.NewDeviceCodeCredential(nil)` fails, and the outcome of
`cred.GetToken` as a function of the requested scopes. -/
structure AzEnv where
  newDeviceCodeCredentialErr : Option String
  getToken : List String → Except String AccessToken

/-- `getAzBearerToken` from the source: build a device-code credential, then
request one token with scopes `[KustoURL + "/.default"]`.  The second
component is the trace of scope lists passed to `GetToken`, in order. -/
def getAzBearerToken (env : AzEnv) : Except String AccessToken × List (List String) :=
  match env.newDeviceCodeCredentialErr with
  | some e => (.error ("failed to obtain a credential: " ++ e), [])
  | none =>
    let scopes := [KustoURL ++ "/.default"]
    match env.getToken scopes with
    | .error e => (.error ("failed to get a token: " ++ e), [scopes])
    | .ok token => (.ok token, [scopes])

/-- `azkustodata.ConnectionStringBuilder`, restricted to the fields this
program sets: the data source URL, an optional AAD user token, and whether
the default Azure credential chain was selected. -/
structure ConnectionStringBuilder where
  dataSource : String
  aadUserToken : Option String
  defaultAzureCredential : Bool
deriving Repr, DecidableEq

/-- `azkustodata.NewConnectionStringBuilder`. -/
def NewConnectionStringBuilder (url : String) : ConnectionStringBuilder :=
  { dataSource := url, aadUserToken := none, defaultAzureCredential := false }

/-- `(*ConnectionStringBuilder).WitAadUserToken` (sic, source spelling). -/
def ConnectionStringBuilder.WitAadUserToken
    (b : ConnectionStringBuilder) (t : String) : ConnectionStringBuilder :=
  { b with aadUserToken := some t }

/-- `(*ConnectionStringBuilder).WithDefaultAzureCredential`. -/
def ConnectionStringBuilder.WithDefaultAzureCredential
    (b : ConnectionStringBuilder) : ConnectionStringBuilder :=
  { b with defaultAzureCredential := true }

/-- `getKustoConnStr` from the source: switch on the auth type.  Note the Go
default branch builds its message with `fmt.Sprint(authType)`, which calls
the `String()` stringer, so the message text uses `AuthTypeString`.  The
second component is the trace of `GetToken` scope lists (empty whenever no
credential acquisition happens). -/
def getKustoConnStr (env : AzEnv) (authType : AuthType) :
    Except String ConnectionStringBuilder × List (List String) :=
  if authType = BearerToken then
    match getAzBearerToken env with
    | (Except.error e, tr) => (.error e, tr)
    | (Except.ok accessToken, tr) =>
      (.ok ((NewConnectionStringBuilder KustoURL).WitAadUserToken accessToken.Token), tr)
  else if authType = Interactive then
    (.ok ((NewConnectionStringBuilder KustoURL).WithDefaultAzureCredential), [])
  else
    (.error ("invalid auth type: " ++ AuthTypeString authType), [])

/-- `getKustoClient`: wraps the outcome of `azkustodata.New`. -/
def getKustoClient (newClientErr : Option String) : Except String Unit :=
  match newClientErr with
  | some e => .error ("error creating kusto client: " ++ e)
  | none => .ok ()

/-- `azkustoingest.FileOption` values the program passes to `FromFile`. -/
inductive FileOption where
  | DeleteSource
  | FlushImmediately
  | ReportResultToTable
deriving Repr, DecidableEq

/-- The option list built in `ingestData` (source lines 151-155). -/
def ingestOptions : List FileOption :=
  [FileOption.DeleteSource, FileOption.FlushImmediately, FileOption.ReportResultToTable]

/-- The fixed text before the inline payload in the staged ingest query. -/
def stagedHeader : String := ".ingest inline into table ravpateTable <| "

/-- The staged ingest query for a formatted timestamp `t`
(`fmt.Sprintf` at source line 142): header, then `t`, then `,Sql,Isgood`. -/
def ingestQueryFor (t : String) : String :=
  stagedHeader ++ t ++ ",Sql,Isgood"

/-- Outcomes of the SDK calls made by `ingestData`: `azkustoingest.New`,
`os.WriteFile`, `(*Ingestor).FromFile`, and the value delivered on the
`status.Wait` channel (`none` = successful terminal status).
`currentTime` is `time.Now().UTC().Format(time.RFC3339)`. -/
structure IngestEnv where
  newIngestorErr : Option String
  currentTime : String
  writeFileErr : Option String
  fromFileErr : Option String
  waitErr : Option String

/-- Observable effects of one `ingestData` call: how many times the ingestor
was closed, which files were written (name, contents), and the `FromFile`
calls made (path, options). -/
structure IngestTrace where
  closes : Nat
  filesWritten : List (String × String)
  fromFileCalls : List (String × List FileOption)
deriving Repr, DecidableEq

/-- `ingestData` from the source.  Construct the ingestor (early return on
error, before the `defer ingestor.Close()` is registered); serialize the
row; write `ingest.kql` discarding `os.WriteFile`'s error; submit
`./ingest.kql` with the three options; wait for the pipeline's terminal
status.  Every path after construction closes the ingestor exactly once
(the `defer`). -/
def ingestData (env : IngestEnv) : Except String Unit × IngestTrace :=
  match env.newIngestorErr with
  | some e =>
    (.error ("error creating ingestor: " ++ e),
     { closes := 0, filesWritten := [], fromFileCalls := [] })
  | none =>
    let ingestQuery := ingestQueryFor env.currentTime
    let _discardedWriteErr := env.writeFileErr
    let files := [("ingest.kql", ingestQuery)]
    let calls := [("./ingest.kql", ingestOptions)]
    match env.fromFileErr with
    | some e =>
      (.error ("error ingesting data: " ++ e),
       { closes := 1, filesWritten := files, fromFileCalls := calls })
    | none =>
      match env.waitErr with
      | some e =>
        (.error ("error waiting for ingest: " ++ e),
         { closes := 1, filesWritten := files, fromFileCalls := calls })
      | none =>
        (.ok (), { closes := 1, filesWritten := files, fromFileCalls := calls })

/-- A row delivered during iteration: either its values or a row error
(`rowResult.Err()`). -/
abbrev RowResult := Except String (List String)

/-- Outcomes of the SDK calls made by `getData`: `client.IterativeQuery`,
the primary table's `Err()`, and the sequence of row results the primary
table's `Rows()` channel would deliver, in service order. -/
structure QueryEnv where
  iterativeQueryErr : Option String
  primaryErr : Option String
  rows : List RowResult

/-- Observable effects of one `getData` call: dataset `Close` count and the
rows actually observed (logged) by the caller, in order. -/
structure QueryTrace where
  closes : Nat
  observed : List (List String)
deriving Repr, DecidableEq

/-- The `for rowResult := range primaryResult.Table().Rows()` loop: log each
row until a row carries an error, in which case return that error at once
and observe nothing further. -/
def processRows : List RowResult → Except String Unit × List (List String)
  | [] => (.ok (), [])
  | Except.error e :: _ => (.error ("error getting row result: " ++ e), [])
  | Except.ok r :: rest =>
    let (res, obs) := processRows rest
    (res, r :: obs)

/-- `getData` from the source: submit the iterative query (early return on
error, before `defer dataset.Close()`), check the primary table's error,
then iterate the rows.  Every path after the dataset is acquired closes it
exactly once. -/
def getData (env : QueryEnv) : Except String Unit × QueryTrace :=
  match env.iterativeQueryErr with
  | some e =>
    (.error ("error querying dataset: " ++ e), { closes := 0, observed := [] })
  | none =>
    match env.primaryErr with
    | some e =>
      (.error ("error getting primary result: " ++ e), { closes := 1, observed := [] })
    | none =>
      let r := processRows env.rows
      (r.1, { closes := 1, observed := r.2 })

/-- The stages of `main`, in program order. -/
inductive Stage where
  | buildDescriptor
  | buildClient
  | ingest
  | query
deriving Repr, DecidableEq

/-- Everything `main`'s callees depend on. -/
structure MainEnv where
  az : AzEnv
  newClientErr : Option String
  ingestEnv : IngestEnv
  queryEnv : QueryEnv

/-- `main` from the source with `authType := BearerToken`: build the
connection string, build the query client, ingest, query; `panic(err)`
(modelled as returning that error) at the first failure.  The second
component lists the stages that were entered, in execution order. -/
def mainRun (env : MainEnv) : Except String Unit × List Stage :=
  match (getKustoConnStr env.az BearerToken).1 with
  | Except.error e => (.error e, [Stage.buildDescriptor])
  | Except.ok _kcsb =>
    match getKustoClient env.newClientErr with
    | Except.error e => (.error e, [Stage.buildDescriptor, Stage.buildClient])
    | Except.ok _ =>
      match (ingestData env.ingestEnv).1 with
      | Except.error e =>
        (.error e, [Stage.buildDescriptor, Stage.buildClient, Stage.ingest])
      | Except.ok _ =>
        match (getData env.queryEnv).1 with
        | Except.error e =>
          (.error e, [Stage.buildDescriptor, Stage.buildClient, Stage.ingest, Stage.query])
        | Except.ok _ =>
          (.ok (), [Stage.buildDescriptor, Stage.buildClient, Stage.ingest, Stage.query])

/-- Split a character list at commas, accumulating the current field
(reversed) in `acc`; gives the comma-separated fields of the input. -/
def commaFieldsAux : List Char → List Char → List String
  | [], acc => [String.mk acc.reverse]
  | c :: cs, acc =>
    if c = ',' then String.mk acc.reverse :: commaFieldsAux cs []
    else commaFieldsAux cs (c :: acc)

/-- The comma-separated fields of the inline payload of a staged ingest
query: drop the fixed header, split the rest at commas. -/
def payloadFields (content : String) : List String :=
  commaFieldsAux (content.data.drop stagedHeader.length) []

/-- Projection of a row result to its values, if it is not an error. -/
def okRow (x : RowResult) : Option (List String) :=
  match x with
  | Except.ok r => some r
  | Except.error _ => none

/-- Concrete identity environment where every SDK call succeeds. -/
def azEnvOk : AzEnv :=
  { newDeviceCodeCredentialErr := none, getToken := fun _ => .ok { Token := "tok" } }

/-- Concrete identity environment whose token request fails. -/
def azEnvTokenFail : AzEnv :=
  { newDeviceCodeCredentialErr := none, getToken := fun _ => .error "boom" }

/-- Concrete ingest environment where every SDK call succeeds, with a fixed
formatted timestamp. -/
def ingestEnvOk : IngestEnv :=
  { newIngestorErr := none, currentTime := "2024-01-01T00:00:00Z",
    writeFileErr := none, fromFileErr := none, waitErr := none }

/-- Concrete ingest environment whose pipeline terminal status is a failure. -/
def ingestEnvWaitFail : IngestEnv :=
  { ingestEnvOk with waitErr := some "pipeline failed" }

/-- Concrete query environment whose second row carries an error. -/
def queryEnvRowFail : QueryEnv :=
  { iterativeQueryErr := none, primaryErr := none,
    rows := [Except.ok ["r1"], Except.error "bad row", Except.ok ["r2"]] }

/-- Concrete query environment where every SDK call succeeds. -/
def queryEnvOk : QueryEnv :=
  { iterativeQueryErr := none, primaryErr := none, rows := [Except.ok ["r1"]] }

/-- Concrete main environment whose ingestion pipeline fails. -/
def mainEnvIngestFail : MainEnv :=
  { az := azEnvOk, newClientErr := none,
    ingestEnv := ingestEnvWaitFail, queryEnv := queryEnvOk }

/-- Splitting at commas after a comma-free chunk: the chunk becomes the next
field (appended to the pending accumulator) and splitting continues after
the comma with an empty accumulator. -/
theorem commaFieldsAux_no_comma (rest : List Char) :
    ∀ (l acc : List Char), (∀ c ∈ l, c ≠ ',') →
      commaFieldsAux (l ++ ',' :: rest) acc
        = String.mk (acc.reverse ++ l) :: commaFieldsAux rest []
  | [], acc, _ => by simp [commaFieldsAux]
  | c :: l, acc, h => by
    have hc : c ≠ ',' := h c (by simp)
    have ih := commaFieldsAux_no_comma rest l (c :: acc) (fun x hx => h x (by simp [hx]))
    simp [commaFieldsAux, hc, ih]

/-- The payload of the staged ingest query for a comma-free timestamp `t`
splits into exactly the three fields `t`, `"Sql"`, `"Isgood"`. -/
theorem payloadFields_ingestQuery (t : String) (h : ∀ c ∈ t.data, c ≠ ',') :
    payloadFields (ingestQueryFor t) = [t, "Sql", "Isgood"] := by
  have hdrop : (ingestQueryFor t).data.drop stagedHeader.length
      = t.data ++ (",Sql,Isgood").data := by
    have hdata : (ingestQueryFor t).data
        = stagedHeader.data ++ (t.data ++ (",Sql,Isgood").data) := by
      simp [ingestQueryFor, String.data_append]
    rw [hdata]
    have hlen : stagedHeader.length = stagedHeader.data.length := rfl
    rw [hlen, List.drop_left]
  have hsplit : (",Sql,Isgood").data = ',' :: ("Sql,Isgood").data := rfl
  unfold payloadFields
  rw [hdrop, hsplit, commaFieldsAux_no_comma ("Sql,Isgood").data t.data [] h]
  have htail : commaFieldsAux ("Sql,Isgood").data [] = ["Sql", "Isgood"] := by decide
  rw [htail]
  simp

/-- `processRows` on a row list whose first error sits after `pre`: the
error aborts iteration with the wrapped message, and exactly the rows of
`pre` (all of them value rows) are observed, in order. -/
theorem processRows_append_error (e : String) (post : List RowResult) :
    ∀ pre : List RowResult, (∀ x ∈ pre, (okRow x).isSome) →
      processRows (pre ++ Except.error e :: post)
        = (.error ("error getting row result: " ++ e), pre.filterMap okRow) := by
  intro pre
  induction pre with
  | nil => intro _; simp [processRows]
  | cons x pre ih =>
    intro h
    cases x with
    | error e2 =>
      have := h (Except.error e2) (by simp)
      simp [okRow] at this
    | ok r =>
      have hrest := ih (fun y hy => h y (by simp [hy]))
      simp [processRows, hrest, okRow]

/-- Claim C1, as stated, is false: on a fully successful run with timestamp
`2024-01-01T00:00:00Z`, the staged inline payload splits into the three
comma-separated fields `2024-01-01T00:00:00Z`, `Sql`, `Isgood` — not four
fields, and no boolean flag value is present. -/
theorem ingest_payload_four_fields_cex :
    (ingestData ingestEnvOk).2.filesWritten
      = [("ingest.kql", ingestQueryFor "2024-01-01T00:00:00Z")] ∧
    payloadFields (ingestQueryFor "2024-01-01T00:00:00Z")
      = ["2024-01-01T00:00:00Z", "Sql", "Isgood"] ∧
    ¬ (payloadFields (ingestQueryFor "2024-01-01T00:00:00Z")).length = 4 :=
  ⟨rfl, by decide, by decide⟩

/-- Claim C1 (amended): for every ingested record, `ingestData` stages a
comma-separated inline payload with exactly three fields in the table's
column order — the timestamp first, then `Sql` (first name), then `Isgood`
(second name); no flag field is serialized. -/
theorem ingest_payload_three_fields (env : IngestEnv)
    (h : ∀ c ∈ env.currentTime.data, c ≠ ',') :
    (ingestData env).2.filesWritten
      = (match env.newIngestorErr with
         | some _ => []
         | none => [("ingest.kql", ingestQueryFor env.currentTime)]) ∧
    payloadFields (ingestQueryFor env.currentTime)
      = [env.currentTime, "Sql", "Isgood"] := by
  constructor
  · rcases env with ⟨ni, t, w, ff, wa⟩
    cases ni <;> cases ff <;> cases wa <;> rfl
  · exact payloadFields_ingestQuery env.currentTime h

/-- Witness for the amended C1 at the concrete all-success environment. -/
theorem ingest_payload_three_fields_wit :
    (∀ c ∈ ("2024-01-01T00:00:00Z" : String).data, c ≠ ',') ∧
    ((ingestData ingestEnvOk).2.filesWritten
        = [("ingest.kql", ingestQueryFor "2024-01-01T00:00:00Z")] ∧
      payloadFields (ingestQueryFor "2024-01-01T00:00:00Z")
        = ["2024-01-01T00:00:00Z", "Sql", "Isgood"]) := by
  refine ⟨by decide, ?_⟩
  have h := ingest_payload_three_fields ingestEnvOk (by decide)
  simpa using h

/-- Claim C5: the scoped handles — the ingestor in `ingestData`, the
dataset in `getData` — are closed exactly once on every exit path once
acquired, and never closed when acquisition itself failed. -/
theorem scoped_handles_closed_once (ienv : IngestEnv) (qenv : QueryEnv) :
    (ingestData ienv).2.closes
      = (match ienv.newIngestorErr with | none => 1 | some _ => 0) ∧
    (getData qenv).2.closes
      = (match qenv.iterativeQueryErr with | none => 1 | some _ => 0) := by
  constructor
  · rcases ienv with ⟨ni, t, w, ff, wa⟩
    cases ni <;> cases ff <;> cases wa <;> rfl
  · rcases qenv with ⟨iq, pe, rows⟩
    cases iq <;> cases pe <;> rfl

/-- Claim C6: whenever `ingestData` submits, the `FromFile` call carries
exactly the three options delete-source, flush-immediately and
report-result-to-table, in that order, on the staged path. -/
theorem ingest_submission_options_exact (env : IngestEnv) :
    (ingestData env).2.fromFileCalls
      = (match env.newIngestorErr with
         | none => [("./ingest.kql",
             [FileOption.DeleteSource, FileOption.FlushImmediately,
              FileOption.ReportResultToTable])]
         | some _ => []) := by
  rcases env with ⟨ni, t, w, ff, wa⟩
  cases ni <;> cases ff <;> cases wa <;> rfl

/-- Claim C9: the outcome of writing `ingest.kql` is discarded — the whole
result of `ingestData` (value and trace) is independent of the
`os.WriteFile` error, and the submission still targets `./ingest.kql`. -/
theorem writeFile_error_discarded (env : IngestEnv) (r : Option String) :
    ingestData { env with writeFileErr := r } = ingestData env ∧
    (ingestData { env with writeFileErr := r }).2.fromFileCalls
      = (match env.newIngestorErr with
         | none => [("./ingest.kql", ingestOptions)]
         | some _ => []) := by
  constructor
  · rcases env with ⟨ni, t, w, ff, wa⟩
    cases ni <;> cases ff <;> cases wa <;> rfl
  · rcases env with ⟨ni, t, w, ff, wa⟩
    cases ni <;> cases ff <;> cases wa <;> rfl

/-- Claim C2: `ingestData` succeeds exactly when ingestor construction,
submission and the pipeline's terminal status all succeed; each failure —
construction, rejected submission, failed terminal status — yields a
failure outcome carrying that cause. -/
theorem ingestData_failure_propagation (env : IngestEnv) :
    ((ingestData env).1 = .ok () ↔
      env.newIngestorErr = none ∧ env.fromFileErr = none ∧ env.waitErr = none) ∧
    (∀ e, env.newIngestorErr = some e →
      (ingestData env).1 = .error ("error creating ingestor: " ++ e)) ∧
    (∀ e, env.newIngestorErr = none → env.fromFileErr = some e →
      (ingestData env).1 = .error ("error ingesting data: " ++ e)) ∧
    (∀ e, env.newIngestorErr = none → env.fromFileErr = none → env.waitErr = some e →
      (ingestData env).1 = .error ("error waiting for ingest: " ++ e)) := by
  rcases env with ⟨ni, t, w, ff, wa⟩
  cases ni <;> cases ff <;> cases wa <;> simp [ingestData]

/-- Witness for C2 at the environment whose pipeline reports failure. -/
theorem ingestData_failure_propagation_wit :
    ingestEnvWaitFail.newIngestorErr = none ∧
    ingestEnvWaitFail.fromFileErr = none ∧
    ingestEnvWaitFail.waitErr = some "pipeline failed" ∧
    (ingestData ingestEnvWaitFail).1
      = .error ("error waiting for ingest: " ++ "pipeline failed") := by
  refine ⟨rfl, rfl, rfl, ?_⟩
  exact (ingestData_failure_propagation ingestEnvWaitFail).2.2.2 "pipeline failed" rfl rfl rfl

/-- Claim C4: if the rows of the primary table are some prefix of value
rows followed by an error row, `getData` returns that row's error and the
caller observes exactly the prefix rows, in service order — nothing at or
after the failing row. -/
theorem getData_row_error_aborts (env : QueryEnv) (pre post : List RowResult) (e : String)
    (hq : env.iterativeQueryErr = none) (hp : env.primaryErr = none)
    (hpre : ∀ x ∈ pre, (okRow x).isSome)
    (hrows : env.rows = pre ++ Except.error e :: post) :
    (getData env).1 = .error ("error getting row result: " ++ e) ∧
    (getData env).2.observed = pre.filterMap okRow := by
  have hproc := processRows_append_error e post pre hpre
  simp [getData, hq, hp, hrows, hproc]

/-- Witness for C4: one good row, then an error row, then one more row. -/
theorem getData_row_error_aborts_wit :
    queryEnvRowFail.iterativeQueryErr = none ∧
    queryEnvRowFail.primaryErr = none ∧
    queryEnvRowFail.rows = [Except.ok ["r1"]] ++ Except.error "bad row" :: [Except.ok ["r2"]] ∧
    (getData queryEnvRowFail).1 = .error ("error getting row result: " ++ "bad row") ∧
    (getData queryEnvRowFail).2.observed = [["r1"]] := by
  refine ⟨rfl, rfl, rfl, ?_⟩
  have h := getData_row_error_aborts queryEnvRowFail
    [Except.ok ["r1"]] [Except.ok ["r2"]] "bad row" rfl rfl (by decide) rfl
  refine ⟨h.1, ?_⟩
  rw [h.2]
  rfl

/-- Claim C7: in BearerToken mode, every token request `getAzBearerToken`
makes is scoped to exactly `KustoURL ++ "/.default"`, at most one request is
made (no retry), and both credential-construction and token-request
failures surface immediately as the returned error. -/
theorem getAzBearerToken_scope_no_retry (env : AzEnv) :
    (∀ s ∈ (getAzBearerToken env).2, s = [KustoURL ++ "/.default"]) ∧
    (getAzBearerToken env).2.length ≤ 1 ∧
    (∀ e, env.newDeviceCodeCredentialErr = some e →
      (getAzBearerToken env).1 = .error ("failed to obtain a credential: " ++ e) ∧
      (getAzBearerToken env).2 = []) ∧
    (∀ e, env.newDeviceCodeCredentialErr = none →
      env.getToken [KustoURL ++ "/.default"] = .error e →
      (getAzBearerToken env).1 = .error ("failed to get a token: " ++ e)) := by
  rcases env with ⟨cred, tok⟩
  cases cred with
  | some e => simp [getAzBearerToken]
  | none =>
    cases h : tok [KustoURL ++ "/.default"] <;> simp [getAzBearerToken, h]

/-- Witness for C7 at the environment whose token request fails. -/
theorem getAzBearerToken_scope_no_retry_wit :
    azEnvTokenFail.newDeviceCodeCredentialErr = none ∧
    azEnvTokenFail.getToken [KustoURL ++ "/.default"] = .error "boom" ∧
    (getAzBearerToken azEnvTokenFail).1 = .error ("failed to get a token: " ++ "boom") := by
  refine ⟨rfl, rfl, ?_⟩
  exact (getAzBearerToken_scope_no_retry azEnvTokenFail).2.2.2 "boom" rfl rfl

/-- Claim C8: descriptor construction is pure and never fails on its own —
Interactive mode always returns the descriptor with the default credential
chain and makes no token request, and in BearerToken mode a successfully
obtained credential always yields the descriptor carrying that token;
`getKustoConnStr` performs no effect beyond what credential acquisition
itself performed. -/
theorem getKustoConnStr_valid_no_failure (env : AzEnv) (t : AccessToken) :
    getKustoConnStr env Interactive
      = (.ok ((NewConnectionStringBuilder KustoURL).WithDefaultAzureCredential), []) ∧
    ((getAzBearerToken env).1 = .ok t →
      (getKustoConnStr env BearerToken).1
        = .ok ((NewConnectionStringBuilder KustoURL).WitAadUserToken t.Token)) ∧
    (getKustoConnStr env BearerToken).2 = (getAzBearerToken env).2 := by
  refine ⟨rfl, ?_, ?_⟩
  · intro h
    cases hb : getAzBearerToken env with
    | mk r tr =>
      rw [hb] at h
      simp only at h
      cases r with
      | error e => exact absurd h (by simp)
      | ok tok =>
        simp at h
        simp [getKustoConnStr, BearerToken, Interactive, hb, h]
  · cases hb : getAzBearerToken env with
    | mk r tr =>
      cases r <;> simp [getKustoConnStr, BearerToken, Interactive, hb]

/-- Witness for C8 at the all-success identity environment. -/
theorem getKustoConnStr_valid_no_failure_wit :
    (getAzBearerToken azEnvOk).1 = .ok { Token := "tok" } ∧
    (getKustoConnStr azEnvOk BearerToken).1
      = .ok ((NewConnectionStringBuilder KustoURL).WitAadUserToken "tok") := by
  refine ⟨rfl, ?_⟩
  exact (getKustoConnStr_valid_no_failure azEnvOk { Token := "tok" }).2.1 rfl

/-- Claim C10: for every auth type other than `BearerToken` and
`Interactive`, `getKustoConnStr` returns no descriptor but the invalid-auth
error (whose text, via the stringer, reads `invalid auth type: Unknown`),
makes no token request, and `AuthTypeString` on such a value is
`"Unknown"`. -/
theorem getKustoConnStr_invalid_auth (env : AzEnv) (a : AuthType)
    (h0 : a ≠ BearerToken) (h1 : a ≠ Interactive) :
    getKustoConnStr env a = (.error "invalid auth type: Unknown", []) ∧
    AuthTypeString a = "Unknown" := by
  have hs : AuthTypeString a = "Unknown" := by
    simp [AuthTypeString, h0, h1]
  refine ⟨?_, hs⟩
  simp [getKustoConnStr, h0, h1, hs]

/-- Witness for C10 at the out-of-range auth type `2`. -/
theorem getKustoConnStr_invalid_auth_wit :
    (2 : AuthType) ≠ BearerToken ∧ (2 : AuthType) ≠ Interactive ∧
    getKustoConnStr azEnvOk 2 = (.error "invalid auth type: Unknown", []) ∧
    AuthTypeString 2 = "Unknown" := by
  refine ⟨by decide, by decide, ?_, ?_⟩
  · exact (getKustoConnStr_invalid_auth azEnvOk 2 (by decide) (by decide)).1
  · exact (getKustoConnStr_invalid_auth azEnvOk 2 (by decide) (by decide)).2

/-- Claim C3: the orchestrator runs its stages strictly in program order —
the executed-stage trace is always a prefix of build-descriptor,
build-client, ingest, query; the first failing stage ends the run with that
stage's error and no later stage entered; the query stage is entered only
when ingestion succeeded; and the run succeeds exactly when all four stages
do. -/
theorem mainRun_stage_order (env : MainEnv) :
    (∃ rest, (mainRun env).2 ++ rest
      = [Stage.buildDescriptor, Stage.buildClient, Stage.ingest, Stage.query]) ∧
    (Stage.query ∈ (mainRun env).2 → (ingestData env.ingestEnv).1 = .ok ()) ∧
    (∀ e, (getKustoConnStr env.az BearerToken).1 = .error e →
      (mainRun env).1 = .error e ∧ (mainRun env).2 = [Stage.buildDescriptor]) ∧
    (∀ b e, (getKustoConnStr env.az BearerToken).1 = .ok b →
      env.newClientErr = some e →
      (mainRun env).1 = .error ("error creating kusto client: " ++ e) ∧
      (mainRun env).2 = [Stage.buildDescriptor, Stage.buildClient]) ∧
    (∀ b e, (getKustoConnStr env.az BearerToken).1 = .ok b →
      env.newClientErr = none →
      (ingestData env.ingestEnv).1 = .error e →
      (mainRun env).1 = .error e ∧
      (mainRun env).2 = [Stage.buildDescriptor, Stage.buildClient, Stage.ingest]) ∧
    (∀ b e, (getKustoConnStr env.az BearerToken).1 = .ok b →
      env.newClientErr = none →
      (ingestData env.ingestEnv).1 = .ok () →
      (getData env.queryEnv).1 = .error e →
      (mainRun env).1 = .error e ∧
      (mainRun env).2
        = [Stage.buildDescriptor, Stage.buildClient, Stage.ingest, Stage.query]) ∧
    ((mainRun env).1 = .ok () ↔
      (∃ b, (getKustoConnStr env.az BearerToken).1 = .ok b) ∧
      env.newClientErr = none ∧
      (ingestData env.ingestEnv).1 = .ok () ∧
      (getData env.queryEnv).1 = .ok ()) := by
  cases h1 : (getKustoConnStr env.az BearerToken).1 with
  | error e1 =>
    refine ⟨⟨[Stage.buildClient, Stage.ingest, Stage.query], ?_⟩, ?_⟩
    · simp [mainRun, h1]
    · simp [mainRun, h1]
  | ok b1 =>
    cases h2 : env.newClientErr with
    | some e2 =>
      refine ⟨⟨[Stage.ingest, Stage.query], ?_⟩, ?_⟩
      · simp [mainRun, h1, getKustoClient, h2]
      · simp [mainRun, h1, getKustoClient, h2]
    | none =>
      cases h3 : (ingestData env.ingestEnv).1 with
      | error e3 =>
        refine ⟨⟨[Stage.query], ?_⟩, ?_⟩
        · simp [mainRun, h1, getKustoClient, h2, h3]
        · simp [mainRun, h1, getKustoClient, h2, h3]
      | ok u3 =>
        cases h4 : (getData env.queryEnv).1 with
        | error e4 =>
          refine ⟨⟨[], ?_⟩, ?_⟩
          · simp [mainRun, h1, getKustoClient, h2, h3, h4]
          · simp [mainRun, h1, getKustoClient, h2, h3, h4]
        | ok u4 =>
          refine ⟨⟨[], ?_⟩, ?_⟩
          · simp [mainRun, h1, getKustoClient, h2, h3, h4]
          · simp [mainRun, h1, getKustoClient, h2, h3, h4]

/-- Witness for C3 at the environment whose ingestion stage fails: the run
reports the ingest error and the query stage is never entered. -/
theorem mainRun_stage_order_wit :
    (getKustoConnStr mainEnvIngestFail.az BearerToken).1
      = .ok ((NewConnectionStringBuilder KustoURL).WitAadUserToken "tok") ∧
    mainEnvIngestFail.newClientErr = none ∧
    (ingestData mainEnvIngestFail.ingestEnv).1
      = .error ("error waiting for ingest: " ++ "pipeline failed") ∧
    (mainRun mainEnvIngestFail).1
      = .error ("error waiting for ingest: " ++ "pipeline failed") ∧
    (mainRun mainEnvIngestFail).2
      = [Stage.buildDescriptor, Stage.buildClient, Stage.ingest] := by
  refine ⟨rfl, rfl, rfl, ?_⟩
  exact (mainRun_stage_order mainEnvIngestFail).2.2.2.2.1
    ((NewConnectionStringBuilder KustoURL).WitAadUserToken "tok")
    ("error waiting for ingest: " ++ "pipeline failed") rfl rfl rfl

end KustoMain
